import Mathlib

/-!
Verification development for the RoboMo standards-baseline engine
(`standards_baseline/engine.py`, `config.py`, `device_state.py`, `switch.py`,
`schemas.py`).

Shallow embedding conventions:
* Python floats are modelled as exact rationals (`ℚ`) wherever the code only
  performs field arithmetic and comparisons; computations that genuinely
  involve transcendental functions (`math.log`, `math.exp`, fractional powers)
  are modelled over `ℝ` with `Real.log` / `Real.exp` / `Real.rpow`.
* `datetime` timestamps are modelled as rational numbers of seconds;
  `(t - t0).total_seconds()` becomes `t - t0` and `timedelta(minutes=10)`
  becomes `600`.
* Python `Optional[float]` becomes `Option ℚ` (or `Option ℝ`); Python's
  truthiness-based `a or b` on numbers (where both `None` and `0.0` are falsy)
  is modelled by explicit helper functions.
* `math.isfinite` is modelled as always true: over `ℝ` no value is an
  infinity or NaN, and the guarded divisions in the source (`dt > 0`,
  `g ≥ 1e-9`) keep every quantity finite for finite inputs.
* Environment-variable overrides of the configuration constants are out of
  scope; the constants below carry the default values from `config.py`.
-/

namespace Robomo

/-! ### Configuration constants (`config.py`) -/

def DEFAULT_CO2_WEIGHT : ℚ := 2/10
def DEFAULT_PM25_WEIGHT : ℚ := 4/10
def DEFAULT_VOC_WEIGHT : ℚ := 2/10
def DEFAULT_COMFORT_WEIGHT : ℚ := 2/10

def VOC_BREAKPOINTS : ℚ × ℚ × ℚ := (220, 660, 2200)
def VOC_RISK_CAP : ℚ := 65

/-- One row `(c_lo, c_hi, i_lo, i_hi)` of the PM2.5 → AQI breakpoint table. -/
structure AqiRow where
  c_lo : ℚ
  c_hi : ℚ
  i_lo : ℚ
  i_hi : ℚ
  deriving DecidableEq

/-- `DEFAULT_PM25_BREAKPOINTS` from `config.py` (2023 EPA PM2.5 AQI table). -/
def PM25_BREAKPOINTS : List AqiRow :=
  [⟨0, 12, 0, 50⟩,
   ⟨121/10, 354/10, 51, 100⟩,
   ⟨355/10, 554/10, 101, 150⟩,
   ⟨555/10, 1504/10, 151, 200⟩,
   ⟨1505/10, 2504/10, 201, 300⟩,
   ⟨2505/10, 5004/10, 301, 500⟩]

def COMFORT_TEMP_RANGE : ℚ × ℚ := (20, 25)
def COMFORT_RH_RANGE : ℚ × ℚ := (30, 60)

def SMOKE_TRIGGER : ℚ := 35
def SMOKE_MIN_RISE : ℚ := 10
def SMOKE_CLEAR_DELTA : ℚ := 5
def SMOKE_CONSECUTIVE : ℕ := 2

def DEFAULT_DEVICE_COUT_PPM : ℚ := 420
def DEFAULT_DEVICE_ACH : ℚ := 1
def DEFAULT_VOLUME_M3 : ℚ := 250
def DEFAULT_G_PERSON : ℚ := 4/1000000

/-! ### Small helpers -/

/-- `clamp(value, low, high)` from `engine.py`: `max(low, min(value, high))`. -/
def clamp {α : Type} [LinearOrder α] (value low high : α) : α :=
  max low (min value high)

/-- Python `a or b` for `a : Optional[float]`, `b : float`: `None` and `0.0`
are falsy, so the result is `a` when `a` is present and nonzero, else `b`. -/
def pyOrQ (a : Option ℚ) (b : ℚ) : ℚ :=
  match a with
  | none => b
  | some x => if x = 0 then b else x

/-- Python `a or b` for two floats: `a` unless it is `0.0`. -/
def pyOrF (a b : ℚ) : ℚ :=
  if a = 0 then b else a

/-- Python `a or b` for `a b : Optional[...]` where a present `0.0` is falsy. -/
noncomputable def pyOrOptR (a b : Option ℝ) : Option ℝ :=
  match a with
  | none => b
  | some x => if x = 0 then b else some x

/-- Python `a or b` for `a b : Optional[str]` (the empty string is falsy). -/
def pyOrOptStr (a b : Option String) : Option String :=
  match a with
  | none => b
  | some s => if s = "" then b else some s

/-! ### `Sample` and the raw reading mapping (`engine.py`, `schemas.py`)

`Sample.from_mapping` consumes a dict (the output of `model_dump`).  A raw
mapping's timestamp is modelled as `Option ℚ`: `some t` stands for a value
that `_parse_timestamp` parses to the instant `t`, `none` for a value it
rejects with `ValueError`. -/

/-- A reading as a raw mapping (Python dict handed to `Sample.from_mapping`). -/
structure ReadingMapping where
  timestamp : Option ℚ
  device_id : Option String := none
  pm25 : Option ℚ := none
  co2 : Option ℚ := none
  voc : Option ℚ := none
  pm1 : Option ℚ := none
  pm4 : Option ℚ := none
  pm10 : Option ℚ := none
  temp_c : Option ℚ := none
  rh : Option ℚ := none
  deriving DecidableEq

/-- `Sample` dataclass from `engine.py`. -/
structure Sample where
  timestamp : ℚ
  device_id : String
  pm25 : Option ℚ := none
  co2 : Option ℚ := none
  voc : Option ℚ := none
  pm1 : Option ℚ := none
  pm4 : Option ℚ := none
  pm10 : Option ℚ := none
  temp_c : Option ℚ := none
  rh : Option ℚ := none
  deriving DecidableEq

/-- `Sample.from_mapping`: raises (here: `none`) exactly when the timestamp
does not parse; `device_id` falls back to `"unknown"` when absent or empty
(Python `data.get("device_id") or "unknown"`). -/
def Sample.fromMapping (data : ReadingMapping) : Option Sample :=
  match data.timestamp with
  | none => none
  | some ts =>
      some { timestamp := ts
             device_id := (pyOrOptStr data.device_id (some "unknown")).getD "unknown"
             pm25 := data.pm25
             co2 := data.co2
             voc := data.voc
             pm1 := data.pm1
             pm4 := data.pm4
             pm10 := data.pm10
             temp_c := data.temp_c
             rh := data.rh }

/-! ### Moving average and NowCast (`engine.py`) -/

/-- `_moving_average(values, window)`: trailing moving average, causal. -/
def _moving_average (values : List ℚ) (window : ℕ) : List ℚ :=
  if window ≤ 1 then values
  else
    (List.range values.length).map fun idx =>
      let start := idx + 1 - window
      let segment := (values.drop start).take (idx + 1 - start)
      segment.sum / segment.length

/-- Sum `Σ_i w^i * v_i` over `l` (the `numerator` loop of
`compute_nowcast_pm25`, with `l` the reversed tail). -/
def nowcastNum (w : ℚ) (l : List ℚ) : ℚ :=
  (l.enum.map fun iv => w ^ iv.1 * iv.2).sum

/-- Sum `Σ_i w^i` over the indices of `l` (the `denom_sum` loop). -/
def nowcastDen (w : ℚ) (l : List ℚ) : ℚ :=
  (l.enum.map fun iv => w ^ iv.1).sum

/-- `compute_nowcast_pm25(values)` from `engine.py`.  The argument is the
list of non-null values (the source filters out `None` first; we take the
already-filtered list). -/
def compute_nowcast_pm25 (values : List ℚ) : Option ℚ :=
  let tail := values
  if tail = [] then none
  else if tail.length = 1 then some (tail.headD 0)
  else
    let tail := tail.drop (tail.length - 12)
    let c_max := (tail.max?).getD 0
    let c_min := (tail.min?).getD 0
    let denom := max c_max (1/1000000)
    let weight := max (1/2) (1 - (c_max - c_min) / denom)
    let numerator := nowcastNum weight tail.reverse
    let denom_sum := nowcastDen weight tail.reverse
    some (if denom_sum ≠ 0 then numerator / denom_sum else tail.getLastD 0)

/-- `compute_nowcast_series(pm25_values)` from `engine.py`: fold the
chronologically sorted `(timestamp, value)` pairs, maintaining a ≤12-value
tail of non-null values and recording the NowCast after each point. -/
def compute_nowcast_series (pm25_values : List (ℚ × Option ℚ)) : List (ℚ × ℚ) :=
  let sorted := pm25_values.insertionSort fun a b => a.1 ≤ b.1
  (sorted.foldl
    (fun (acc : List ℚ × List (ℚ × ℚ)) tv =>
      let tail := match tv.2 with
        | some v => acc.1 ++ [v]
        | none => acc.1
      let tail := if tail.length > 12 then tail.drop (tail.length - 12) else tail
      let history := match compute_nowcast_pm25 tail with
        | some nc => acc.2 ++ [(tv.1, nc)]
        | none => acc.2
      (tail, history))
    ([], [])).2

/-! ### PM2.5 → AQI (`pm25_aqi`) -/

/-- `pm25_aqi(nowcast)` from `engine.py`: first breakpoint row containing the
concentration is interpolated; if no row matches, the last row's `i_hi` is
returned. -/
def pm25_aqi (nowcast : Option ℚ) : Option ℚ :=
  match nowcast with
  | none => none
  | some c =>
      match PM25_BREAKPOINTS.find? (fun r => decide (r.c_lo ≤ c ∧ c ≤ r.c_hi)) with
      | some r =>
          let rate := (r.i_hi - r.i_lo) / (r.c_hi - r.c_lo)
          some (rate * (c - r.c_lo) + r.i_lo)
      | none => some ((PM25_BREAKPOINTS.getLastD ⟨0, 0, 0, 0⟩).i_hi)

/-! ### Penalty curves -/

/-- `co2_penalty(co2_ppm)`: logistic penalty centred at 800 ppm. -/
noncomputable def co2_penalty (co2_ppm : Option ℚ) : ℝ :=
  match co2_ppm with
  | none => 0
  | some c => clamp (100 / (1 + Real.exp (-(18/1000) * ((c : ℝ) - 800)))) 0 100

/-- `tvoc_penalty(voc)`: two-stage quadratic TVOC penalty. -/
def tvoc_penalty (voc : Option ℚ) : ℚ :=
  match voc with
  | none => 0
  | some v =>
      let b1 := VOC_BREAKPOINTS.1
      let b2 := VOC_BREAKPOINTS.2.1
      let b3 := VOC_BREAKPOINTS.2.2
      let cap := VOC_RISK_CAP
      if v ≤ b1 then 0
      else if v ≤ b2 then
        let fraction := (v - b1) / max (b2 - b1) (1/1000000)
        (cap * (1/2)) * fraction ^ 2
      else if v ≤ b3 then
        let fraction := (v - b2) / max (b3 - b2) (1/1000000)
        (cap * (1/2)) + (cap * (1/2)) * fraction ^ 2
      else cap

/-- `comfort_penalty(temp_c, rh)`: quadratic temperature ramp plus
`Δ ** 1.5` humidity ramp, clamped to [0, 100]. -/
noncomputable def comfort_penalty (temp_c rh : Option ℚ) : ℝ :=
  let temp_low := COMFORT_TEMP_RANGE.1
  let temp_high := COMFORT_TEMP_RANGE.2
  let rh_low := COMFORT_RH_RANGE.1
  let rh_high := COMFORT_RH_RANGE.2
  let p1 : ℝ :=
    match temp_c with
    | none => 0
    | some t =>
        if t < temp_low then (((temp_low - t : ℚ) : ℝ) ^ 2) * 2
        else if t > temp_high then (((t - temp_high : ℚ) : ℝ) ^ 2) * 2
        else 0
  let p2 : ℝ :=
    match rh with
    | none => 0
    | some h =>
        if h < rh_low then ((rh_low - h : ℚ) : ℝ) ^ (3/2 : ℝ)
        else if h > rh_high then ((h - rh_high : ℚ) : ℝ) ^ (3/2 : ℝ)
        else 0
  clamp (p1 + p2) 0 100

/-! ### IAQ aggregation (`build_iaq`) -/

/-- Result of `build_iaq` (the `weights` echo is the constant table and is
omitted as a field). -/
structure IAQInfo where
  iaq_score : ℝ
  aqi_pm25 : Option ℚ
  risk_pm25 : ℚ
  risk_co2 : ℝ
  risk_tvoc : ℚ
  risk_comfort : ℝ
  risk_weighted : ℝ
  dominant_risk : ℝ

/-- `build_iaq` from `engine.py`: combine pollutant and comfort penalties
into a 0–100 IAQ score. -/
noncomputable def build_iaq (nowcast_pm25 co2_ppm voc temp_c rh : Option ℚ) : IAQInfo :=
  let aqi_pm25 := pm25_aqi nowcast_pm25
  let risk_pm25 : ℚ :=
    match aqi_pm25 with
    | some a => min 100 (pyOrF a 0 / 5)
    | none => 0
  let risk_co2 := co2_penalty co2_ppm
  let risk_tvoc := tvoc_penalty voc
  let risk_comfort := comfort_penalty temp_c rh
  let weighted_sum : ℝ :=
    (risk_pm25 : ℝ) * (DEFAULT_PM25_WEIGHT : ℝ)
    + risk_co2 * (DEFAULT_CO2_WEIGHT : ℝ)
    + (risk_tvoc : ℝ) * (DEFAULT_VOC_WEIGHT : ℝ)
    + risk_comfort * (DEFAULT_COMFORT_WEIGHT : ℝ)
  let weighted_risk := clamp weighted_sum 0 100
  { iaq_score := clamp (100 - weighted_risk) 0 100
    aqi_pm25 := aqi_pm25
    risk_pm25 := risk_pm25
    risk_co2 := risk_co2
    risk_tvoc := risk_tvoc
    risk_comfort := risk_comfort
    risk_weighted := weighted_risk
    dominant_risk := max (max risk_co2 (risk_pm25 : ℝ)) (max (risk_tvoc : ℝ) risk_comfort) }

/-! ### Smoke detector (`assess_smoke`, `device_state.py`) -/

/-- `SmokeState` dataclass from `device_state.py`. -/
structure SmokeState where
  active : Bool := false
  consecutive_below : ℕ := 0
  last_reason : String := "normal"
  deriving DecidableEq

/-- Threshold block reported by `assess_smoke`. -/
structure SmokeThresholds where
  trigger : ℚ
  min_rise : ℚ
  clear_threshold : ℚ
  hysteresis_required : ℕ
  deriving DecidableEq

/-- The `info` dict returned by `assess_smoke`. -/
structure SmokeInfo where
  smoke_present : Bool
  reason : String
  last_nowcast_pm25 : Option ℚ
  raw_probability : ℚ
  thresholds_used : SmokeThresholds
  deriving DecidableEq

/-- Latest value of the time-sorted NowCast series (`nowcast_series[-1]`). -/
def smokeLatest (series : List (ℚ × ℚ)) : ℚ × ℚ :=
  (series.insertionSort fun a b => a.1 ≤ b.1).getLastD (0, 0)

/-- The reference value used for the rise: the most recent point at or before
`latest_ts - 10 min`, else the earliest point. -/
def smokeReference (series : List (ℚ × ℚ)) : ℚ :=
  let sorted := series.insertionSort fun a b => a.1 ≤ b.1
  let latest := sorted.getLastD (0, 0)
  let ten_minutes := latest.1 - 600
  match sorted.reverse.find? (fun p => decide (p.1 ≤ ten_minutes)) with
  | some p => p.2
  | none => (sorted.headD (0, 0)).2

/-- `assess_smoke(nowcast_series, state)` from `engine.py`: the hysteresis
state machine.  `state or SmokeState()` becomes `state?.getD {}` since a
dataclass instance is always truthy. -/
def assess_smoke (nowcast_series : List (ℚ × ℚ)) (state? : Option SmokeState) :
    SmokeInfo × SmokeState :=
  let state := state?.getD {}
  let trigger := SMOKE_TRIGGER
  let clear_threshold := trigger - SMOKE_CLEAR_DELTA
  if nowcast_series = [] then
    ({ smoke_present := false
       reason := "insufficient"
       last_nowcast_pm25 := none
       raw_probability := 0
       thresholds_used :=
         ⟨trigger, SMOKE_MIN_RISE, clear_threshold, SMOKE_CONSECUTIVE⟩ }, state)
  else
    let latest := smokeLatest nowcast_series
    let latest_val := latest.2
    let rise := latest_val - smokeReference nowcast_series
    let trigger_met := latest_val ≥ trigger ∧ rise ≥ SMOKE_MIN_RISE
    let next : Bool × ℕ × String :=
      if trigger_met then (true, 0, "rapid_rise")
      else if state.active then
        if latest_val ≤ clear_threshold then
          let cb := state.consecutive_below + 1
          if cb ≥ SMOKE_CONSECUTIVE then (false, 0, "clearing")
          else (true, cb, "hysteresis_hold")
        else (true, 0, "hysteresis_hold")
      else (false, 0, "below_threshold")
    let raw_probability :=
      clamp ((latest_val - clear_threshold) / max (trigger - clear_threshold) (1/1000000)) 0 1
    ({ smoke_present := next.1
       reason := next.2.2
       last_nowcast_pm25 := some latest_val
       raw_probability := raw_probability
       thresholds_used :=
         ⟨trigger, SMOKE_MIN_RISE, clear_threshold, SMOKE_CONSECUTIVE⟩ },
     { active := next.1, consecutive_below := next.2.1, last_reason := next.2.2 })

/-! ### ACH estimation (`_regression_slope`, `estimate_ach`) -/

/-- `_regression_slope(x, y)` from `engine.py`: ordinary least-squares slope,
`None` on fewer than two points or zero variance in `x`. -/
noncomputable def _regression_slope (x y : List ℝ) : Option ℝ :=
  let n := x.length
  if n < 2 then none
  else
    let sum_x := x.sum
    let sum_y := y.sum
    let sum_xy := ((x.zip y).map fun ab => ab.1 * ab.2).sum
    let sum_x2 := (x.map fun a => a * a).sum
    let denom := (n : ℝ) * sum_x2 - sum_x * sum_x
    if denom = 0 then none
    else some (((n : ℝ) * sum_xy - sum_x * sum_y) / denom)

/-- `estimate_ach(times, co2_ppm, cout_ppm)` from `engine.py`.  Note that the
source clamps each excess concentration to at least `1e-6` *before* testing
`any(v <= 0)`, so that guard never fires. -/
noncomputable def estimate_ach (times co2_ppm : List ℚ) (cout_ppm : ℚ) : Option ℝ :=
  if times.length < 3 then none
  else
    let t0 := times.headD 0
    let values := times.map fun t => t - t0
    let co2 := co2_ppm.map fun v => max (v - cout_ppm) (1/1000000)
    if co2.any fun v => decide (v ≤ 0) then none
    else
      let logs := co2.map fun v => Real.log (v : ℝ)
      match _regression_slope (values.map fun v => (v : ℝ)) logs with
      | none => none
      | some slope => if slope ≥ 0 then none else some (-slope * 3600)

/-! ### Device state (`device_state.py`) -/

/-- `DeviceState` dataclass.  The cached `ach` may come from the decay
estimator and is therefore a real number. -/
structure DeviceState where
  device_id : String
  volume_m3 : ℚ := DEFAULT_VOLUME_M3
  ach : Option ℝ := none
  cout_ppm : ℚ := DEFAULT_DEVICE_COUT_PPM
  ach_source : String := "default"
  last_nowcast_pm25 : Option ℚ := none
  g_person : ℚ := DEFAULT_G_PERSON
  last_updated : Option ℚ := none
  smoke : SmokeState := {}

/-! ### Occupancy estimation (`compute_occupancy`) -/

/-- `BaselineOptions` dataclass from `engine.py`. -/
structure BaselineOptions where
  volume_m3 : ℚ := DEFAULT_VOLUME_M3
  ach : Option ℝ := none
  cout_ppm : ℚ := DEFAULT_DEVICE_COUT_PPM
  g_person : ℚ := DEFAULT_G_PERSON

/-- The occupancy part of the result dict. -/
structure OccupancyInfo where
  n_estimate : ℝ
  ach_used : ℝ
  ach_source : String
  note : String

/-- The `updates` entries produced by `compute_occupancy` (`ach`,
`ach_source`, present only when a decay estimate was adopted). -/
structure OccUpdates where
  ach : Option ℝ := none
  ach_source : Option String := none

/-- `compute_occupancy(samples, options=..., ach_origin=..., allow_estimate=...,
cached_state=...)` from `engine.py` (the `cached_state` parameter is unused in
the source body and kept for signature fidelity). -/
noncomputable def compute_occupancy (samples : List Sample) (options : BaselineOptions)
    (ach_origin : String) (allow_estimate : Bool) (cached_state : Option DeviceState) :
    OccupancyInfo × OccUpdates :=
  let _ := cached_state
  let co2_samples := samples.filterMap fun s => s.co2.map fun c => (s.timestamp, c)
  if co2_samples.length < 1 then
    ({ n_estimate := 0
       ach_used := (pyOrOptR options.ach (some (DEFAULT_DEVICE_ACH : ℝ))).getD (DEFAULT_DEVICE_ACH : ℝ)
       ach_source := ach_origin
       note := "insufficient CO2 data" }, {})
  else
    let sorted := co2_samples.insertionSort fun a b => a.1 ≤ b.1
    let times := sorted.map Prod.fst
    let values := sorted.map Prod.snd
    let smoothed_values := _moving_average values 3
    let ach_used : ℝ := (options.ach).getD (DEFAULT_DEVICE_ACH : ℝ)
    let notes : List String := ["ach_source=" ++ ach_origin, "ma3_co2_smoothing"]
    -- Python `if ach_est and ach_est > 0.1`: a present, nonzero estimate above 0.1.
    let est :=
      if allow_estimate then
        match estimate_ach times values options.cout_ppm with
        | some a => if a ≠ 0 ∧ a > 1/10 then some a else none
        | none => none
      else none
    let ach_used := match est with | some a => a | none => ach_used
    let ach_source := match est with | some _ => "decay_estimate" | none => ach_origin
    let updates : OccUpdates :=
      match est with
      | some a => { ach := some a, ach_source := some "decay_estimate" }
      | none => {}
    let notes := match est with | some _ => notes ++ ["ach_estimated_from_decay"] | none => notes
    let V : ℝ := (options.volume_m3 : ℝ)
    let Q : ℝ := ach_used * V / 3600
    let cout_frac : ℚ := options.cout_ppm / 1000000
    let g : ℚ := max (pyOrF options.g_person DEFAULT_G_PERSON) (1/1000000000)
    -- derivative branch: needs ≥ 2 smoothed points and dt > 0
    let deriv : Option (ℝ × Bool) :=
      if 2 ≤ smoothed_values.length then
        let c_t : ℚ := smoothed_values.getLastD 0 / 1000000
        let c_prev : ℚ := (smoothed_values.getD (smoothed_values.length - 2) 0) / 1000000
        let dt : ℚ := times.getLastD 0 - times.getD (times.length - 2) 0
        if dt > 0 then
          let dc_dt : ℚ := (c_t - c_prev) / dt
          some (((V * (dc_dt : ℝ) + Q * ((c_t : ℝ) - (cout_frac : ℝ))) / (g : ℝ)),
                decide (|dc_dt| < 1/1000000))
        else none
      else none
    let notes := match deriv with
      | some d => if d.2 then notes ++ ["steady_state"] else notes
      | none => notes
    -- `math.isfinite` holds for every real number in this model.
    let estimate : ℝ × List String :=
      match deriv with
      | some d => (d.1, notes)
      | none =>
          let c_t : ℚ := smoothed_values.getLastD 0 / 1000000
          (Q * ((c_t : ℝ) - (cout_frac : ℝ)) / (g : ℝ), notes ++ ["steady_state_estimate"])
    ({ n_estimate := max 0 estimate.1
       ach_used := ach_used
       ach_source := ach_source
       note := String.intercalate "; " estimate.2 }, updates)

/-! ### `compute_baseline` (`engine.py`) -/

/-- The full per-request result dict. -/
structure BaselineResult where
  device_id : String
  iaq : IAQInfo
  smoke : SmokeInfo
  occupancy : OccupancyInfo

/-- The `updates` dict assembled by `compute_baseline`. -/
structure BaselineUpdates where
  timestamp : ℚ
  nowcast_pm25 : Option ℚ
  volume_m3 : ℚ
  cout_ppm : ℚ
  smoke_state : SmokeState
  ach : Option ℝ := none
  ach_source : Option String := none

/-- Placeholder sample used to make list indexing total; `compute_baseline`
is only called on non-empty batches (guarded in `_compute`). -/
def dummySample : Sample :=
  { timestamp := 0, device_id := "unknown" }

/-- `compute_baseline(device_id, samples, options, device_state=...,
ach_origin=..., allow_update=...)` from `engine.py`. -/
noncomputable def compute_baseline (device_id : String) (samples : List Sample)
    (options : BaselineOptions) (device_state : Option DeviceState)
    (ach_origin : String) (allow_update : Bool) :
    BaselineResult × BaselineUpdates :=
  let sorted := samples.insertionSort fun a b => a.timestamp ≤ b.timestamp
  let now := (sorted.getLastD dummySample).timestamp
  let pm_series := (sorted.filter fun s => s.pm25 ≠ none).map fun s => (s.timestamp, s.pm25)
  let nowcasts := compute_nowcast_series pm_series
  let nowcast_latest := (nowcasts.getLast?).map Prod.snd
  let latest := sorted.getLastD dummySample
  let iaq := build_iaq nowcast_latest latest.co2 latest.voc latest.temp_c latest.rh
  let smoke_state := device_state.map DeviceState.smoke
  let assessed := assess_smoke nowcasts smoke_state
  let occ := compute_occupancy sorted options ach_origin allow_update device_state
  ({ device_id := device_id
     iaq := iaq
     smoke := assessed.1
     occupancy := occ.1 },
   { timestamp := now
     nowcast_pm25 := nowcast_latest
     volume_m3 := options.volume_m3
     cout_ppm := options.cout_ppm
     smoke_state := assessed.2
     ach := occ.2.ach
     ach_source := occ.2.ach_source })

/-! ### Orchestrator (`switch.py`)

The module-level mutable registries `_MODE`, `_HISTORY`, `_DEVICE_STATE` and
`_LAST_RESULTS` are modelled as one explicit state record threaded through
the functions.  `_HISTORY` is a `defaultdict` of bounded deques, hence a
total map defaulting to `[]`; the two plain dicts become maps into `Option`. -/

/-- Python `a or b` on two plain strings (the empty string is falsy). -/
def pyOrStr (a b : String) : String :=
  if a = "" then b else a

/-- A validated `BaselineRequest` (`schemas.py`).  The readings are kept as
raw mappings because `_samples_from_request` consumes their `model_dump`
output. -/
structure BaselineRequest where
  device_id : Option String := none
  readings : List ReadingMapping
  volume_m3 : Option ℚ := none
  ach : Option ℚ := none
  cout_ppm : Option ℚ := none
  g_per_person_m3_s : Option ℚ := none

/-- The process-wide mutable state of `switch.py`. -/
structure SwitchState where
  mode : String := "baseline"
  history : String → List ReadingMapping := fun _ => []
  deviceState : String → Option DeviceState := fun _ => none
  lastResults : String → Option BaselineResult := fun _ => none

/-- `get_mode()`. -/
def get_mode (st : SwitchState) : String :=
  st.mode

/-- `set_mode(mode)`: anything other than `"baseline"` stores `"ml"`. -/
def set_mode (mode : String) (st : SwitchState) : String × SwitchState :=
  let m := if mode = "baseline" then "baseline" else "ml"
  (m, { st with mode := m })

/-- The `ModeRequest` pydantic validator (`schemas.py`):
`mode: str = Field(pattern="^(baseline|ml)$")`. -/
def modeRequestValid (mode : String) : Bool :=
  mode = "baseline" || mode = "ml"

/-- The `POST /baseline/mode` endpoint (`api.py`): pydantic validation of
`ModeRequest` runs before the handler, so an invalid mode string is rejected
(`none`) with the state untouched; otherwise `set_mode` runs. -/
def update_mode (mode : String) (st : SwitchState) : Option String × SwitchState :=
  if modeRequestValid mode then
    let r := set_mode mode st
    (some r.1, r.2)
  else (none, st)

/-- `deque(maxlen=288)` append: FIFO eviction beyond 288 entries. -/
def pushBounded (l : List ReadingMapping) (a : ReadingMapping) : List ReadingMapping :=
  let l' := l ++ [a]
  if 288 < l'.length then l'.drop (l'.length - 288) else l'

/-- `record_history(reading)`: append the reading's dump to the device's
bounded history.  The entry appended is the mapping itself. -/
def record_history (reading : ReadingMapping) (st : SwitchState) : SwitchState :=
  let device_id := (pyOrOptStr reading.device_id (some "unknown")).getD "unknown"
  { st with history :=
      Function.update st.history device_id (pushBounded (st.history device_id) reading) }

/-- `build_request_from_history(device_id)`: `None` on empty history, else a
request over the buffered entries.  (The pydantic re-validation of each entry
cannot fail on entries produced by `record_history` / `record_manual_request`,
the only writers in the source.) -/
def build_request_from_history (device_id : String) (st : SwitchState) :
    Option BaselineRequest :=
  let history := st.history device_id
  if history = [] then none
  else some { device_id := some device_id, readings := history }

/-- `_samples_from_request(request)`: parse each reading, silently skipping
any whose timestamp raises `ValueError`. -/
def _samples_from_request (request : BaselineRequest) : List Sample :=
  request.readings.foldl
    (fun acc reading =>
      match Sample.fromMapping reading with
      | some s => acc ++ [s]
      | none => acc)
    []

/-- `_state_for(device_id)`: lazily create a default `DeviceState`. -/
def _state_for (device_id : String) (st : SwitchState) : DeviceState × SwitchState :=
  match st.deviceState device_id with
  | some s => (s, st)
  | none =>
      let s : DeviceState := { device_id := device_id }
      (s, { st with deviceState := Function.update st.deviceState device_id (some s) })

/-- `_resolve_options(device_id, request, volume_m3=..., ach=..., cout_ppm=...,
g_per_person=...)` from `switch.py`.  The `volume_m3`/`cout_ppm`/`g_person`
chains use Python `or` (truthiness), the `ach` chain uses `is not None`. -/
noncomputable def _resolve_options (device_id : String) (request : BaselineRequest)
    (volume_m3 ach cout_ppm g_per_person : Option ℚ) (st : SwitchState) :
    (BaselineOptions × String) × SwitchState :=
  let s := _state_for device_id st
  let state := s.1
  let resolved_volume := pyOrQ volume_m3 (pyOrQ request.volume_m3
    (pyOrF state.volume_m3 DEFAULT_VOLUME_M3))
  let resolved_cout := pyOrQ cout_ppm (pyOrQ request.cout_ppm
    (pyOrF state.cout_ppm DEFAULT_DEVICE_COUT_PPM))
  let achPair : ℝ × String :=
    match ach with
    | some a => ((a : ℝ), "provided")
    | none =>
        match request.ach with
        | some a => ((a : ℝ), "provided")
        | none =>
            match state.ach with
            | some a => (a, pyOrStr state.ach_source "cached")
            | none => ((DEFAULT_DEVICE_ACH : ℝ), "default")
  let options : BaselineOptions :=
    { volume_m3 := resolved_volume
      ach := some achPair.1
      cout_ppm := resolved_cout
      g_person := pyOrQ g_per_person (pyOrQ request.g_per_person_m3_s state.g_person) }
  ((options, achPair.2), s.2)

/-- `DeviceState.update_context` plus the `state.smoke` assignment, exactly as
invoked from `_compute` when `update_state` is true.  The
`updates.get("timestamp") or datetime.utcnow()` fallback is unreachable since
`compute_baseline` always sets a (truthy) timestamp. -/
noncomputable def applyContextUpdate (state : DeviceState) (updates : BaselineUpdates)
    (options : BaselineOptions) : DeviceState :=
  let ach_arg := pyOrOptR updates.ach state.ach
  let ach_source_arg :=
    match updates.ach_source with
    | some s => pyOrStr s state.ach_source
    | none => state.ach_source
  { state with
    volume_m3 := pyOrF updates.volume_m3 state.volume_m3
    cout_ppm := pyOrF updates.cout_ppm state.cout_ppm
    ach := match ach_arg with | some a => some a | none => state.ach
    ach_source := ach_source_arg
    last_nowcast_pm25 :=
      match updates.nowcast_pm25 with
      | some v => some v
      | none => state.last_nowcast_pm25
    last_updated := some updates.timestamp
    g_person := options.g_person
    smoke := updates.smoke_state }

/-- `_compute(request, ..., update_state)` from `switch.py`.  `none` as first
component models the `ValueError("No valid readings provided")`. -/
noncomputable def _compute (request : BaselineRequest)
    (volume_m3 ach cout_ppm g_per_person : Option ℚ) (update_state : Bool)
    (st : SwitchState) : Option BaselineResult × SwitchState :=
  let device_id := (pyOrOptStr request.device_id (some "unknown")).getD "unknown"
  let s := _state_for device_id st
  let state := s.1
  let resolved := _resolve_options device_id request volume_m3 ach cout_ppm g_per_person s.2
  let options := resolved.1.1
  let ach_origin := resolved.1.2
  let st2 := resolved.2
  let samples := _samples_from_request request
  if samples = [] then (none, st2)
  else
    let cb := compute_baseline device_id samples options (some state) ach_origin update_state
    let newDs := Function.update st2.deviceState device_id
      (some (applyContextUpdate state cb.2 options))
    let st3 := if update_state then { st2 with deviceState := newDs } else st2
    let st4 := { st3 with lastResults := Function.update st3.lastResults device_id (some cb.1) }
    (some cb.1, st4)

/-- `compute_from_payload(payload, ...)` from `switch.py`: the streaming entry
point.  `BaselineReading(**payload)` validates the payload before any state
change (modelled by the timestamp match); then the reading is appended to the
history, the request is rebuilt from the buffered history, and `_compute` runs
with `update_state=False`. -/
noncomputable def compute_from_payload (payload : ReadingMapping)
    (volume_m3 ach cout_ppm g_per_person : Option ℚ) (st : SwitchState) :
    Option BaselineResult × SwitchState :=
  match payload.timestamp with
  | none => (none, st)
  | some _ =>
      let device_id := (pyOrOptStr payload.device_id (some "unknown")).getD "unknown"
      let st1 := record_history payload st
      let request :=
        match build_request_from_history device_id st1 with
        | some r => r
        | none => { device_id := some device_id, readings := [payload] }
      _compute request volume_m3 ach cout_ppm g_per_person false st1

/-- `record_manual_request(request, result)` from `switch.py`: replace the
device's history with the request's readings and cache the result. -/
def record_manual_request (request : BaselineRequest) (result : BaselineResult)
    (st : SwitchState) : SwitchState :=
  let device_id := pyOrStr ((pyOrOptStr request.device_id (some "")).getD "")
    (pyOrStr result.device_id "unknown")
  let newHistory := request.readings.foldl pushBounded []
  { st with
    history := Function.update st.history device_id newHistory
    lastResults := Function.update st.lastResults device_id (some result) }

/-- `compute_request_payload(payload)` from `switch.py`: the batch entry
point; on success the manual request is recorded, on the "no valid readings"
error the exception propagates. -/
noncomputable def compute_request_payload (request : BaselineRequest)
    (st : SwitchState) : Option BaselineResult × SwitchState :=
  match _compute request none none none none true st with
  | (none, st') => (none, st')
  | (some result, st') => (some result, record_manual_request request result st')

/-- The single reading of the end-to-end scenario (§8 of the spec):
`{co2:900, voc:300, pm25:10, temp_c:22, rh:45}` at instant 0 for device
`office_iaq`. -/
def officeSample : Sample :=
  { timestamp := 0
    device_id := "office_iaq"
    pm25 := some 10
    co2 := some 900
    voc := some 300
    temp_c := some 22
    rh := some 45 }

/-- The options `_resolve_options` yields for a fresh device with an empty
request and no overrides (all global defaults; `ach = 1.0`, origin
`default`). -/
noncomputable def officeOptions : BaselineOptions :=
  { volume_m3 := 250
    ach := some ((1 : ℚ) : ℝ)
    cout_ppm := 420
    g_person := 4/1000000 }

/-! ## Supporting lemmas -/

/-- The discard loop of `_samples_from_request` accumulates exactly the
readings that parse, in order. -/
lemma samples_foldl_eq (readings : List ReadingMapping) (acc : List Sample) :
    readings.foldl
      (fun acc reading =>
        match Sample.fromMapping reading with
        | some s => acc ++ [s]
        | none => acc) acc
    = acc ++ readings.filterMap Sample.fromMapping := by
  induction readings generalizing acc with
  | nil => simp
  | cons r rest ih =>
      cases h : Sample.fromMapping r with
      | none => simp [List.foldl_cons, h, ih, List.filterMap_cons]
      | some s => simp [List.foldl_cons, h, ih, List.filterMap_cons]

lemma samples_from_request_eq (request : BaselineRequest) :
    _samples_from_request request = request.readings.filterMap Sample.fromMapping := by
  unfold _samples_from_request
  simpa using samples_foldl_eq request.readings []

/-! ## Claim theorems -/

/-- C9: the occupancy estimate returned by `compute_occupancy` is clamped to
be non-negative for every input batch and every parameter set. -/
theorem compute_occupancy_nonneg (samples : List Sample) (options : BaselineOptions)
    (ach_origin : String) (allow_estimate : Bool) (cached_state : Option DeviceState) :
    0 ≤ (compute_occupancy samples options ach_origin allow_estimate cached_state).1.n_estimate := by
  simp only [compute_occupancy]
  split
  · norm_num
  · exact le_max_left (0 : ℝ) _

/-- C6 counterexample: the mode boundary does not validate against
`{baseline, model-driven}` — the string `"ml"` (not one of those two) is
accepted and changes the stored mode, while `"model-driven"` itself is
rejected. -/
theorem update_mode_claim_false :
    (update_mode "ml" ({} : SwitchState)).1 = some "ml" ∧
    (update_mode "ml" ({} : SwitchState)).2.mode = "ml" ∧
    ({} : SwitchState).mode = "baseline" ∧
    (update_mode "model-driven" ({} : SwitchState)).1 = none := by
  refine ⟨?_, ?_, rfl, ?_⟩ <;> simp [update_mode, modeRequestValid, set_mode]

/-- C6 (amended): the mode boundary validates against exactly `"baseline"`
and `"ml"`; every other string is rejected with the state (hence the stored
mode) unchanged, and the two valid strings are stored as given. -/
theorem update_mode_boundary (mode : String) (st : SwitchState)
    (h1 : mode ≠ "baseline") (h2 : mode ≠ "ml") :
    update_mode mode st = (none, st) ∧
    (update_mode "baseline" st).1 = some "baseline" ∧
    (update_mode "baseline" st).2.mode = "baseline" ∧
    (update_mode "ml" st).1 = some "ml" ∧
    (update_mode "ml" st).2.mode = "ml" := by
  refine ⟨?_, ?_, ?_, ?_, ?_⟩ <;>
    simp [update_mode, modeRequestValid, set_mode, h1, h2]

/-- Witness for `update_mode_boundary` at the concrete invalid string
`"model-driven"` and the initial state. -/
theorem update_mode_boundary_witness :
    update_mode "model-driven" ({} : SwitchState) = (none, {}) ∧
    (update_mode "ml" ({} : SwitchState)).2.mode = "ml" := by
  have h := update_mode_boundary "model-driven" ({} : SwitchState)
    (by decide) (by decide)
  exact ⟨h.1, h.2.2.2.2⟩

/-- C8: a reading whose timestamp fails to parse is silently discarded and
the computation proceeds with the remaining valid readings (the sample batch
is exactly the sublist of readings that parse, in order, and a reading fails
to parse precisely when its timestamp does); `_compute` raises the
"No valid readings provided" error (`none`) precisely when no valid readings
remain. -/
theorem samples_discard_and_error (request : BaselineRequest)
    (volume_m3 ach cout_ppm g_per_person : Option ℚ) (update_state : Bool)
    (st : SwitchState) :
    _samples_from_request request = request.readings.filterMap Sample.fromMapping ∧
    (∀ r : ReadingMapping, Sample.fromMapping r = none ↔ r.timestamp = none) ∧
    ((_compute request volume_m3 ach cout_ppm g_per_person update_state st).1 = none ↔
      request.readings.filterMap Sample.fromMapping = []) := by
  refine ⟨samples_from_request_eq request, ?_, ?_⟩
  · intro r
    cases h : r.timestamp <;> simp [Sample.fromMapping, h]
  · rw [← samples_from_request_eq request]
    by_cases hs : _samples_from_request request = [] <;> simp [_compute, hs]

/-- C7 counterexample: an explicit `volume_m3` override of `0` does not win —
Python `or` treats `0.0` as falsy, so resolution falls through to the
request-supplied value `100`. -/
theorem resolve_zero_override_falls_through :
    ((_resolve_options "d" { readings := [], volume_m3 := some 100 }
        (some 0) none none none {}).1.1.volume_m3 = 100) ∧ (0 : ℚ) ≠ 100 := by
  constructor
  · simp [_resolve_options, _state_for, pyOrQ, pyOrF]
  · norm_num

/-- C7 (amended): parameters are resolved fresh per call with precedence
explicit override > request value > cached device value > global default,
where for `volume_m3`, `cout_ppm` and `g_person` a stage only wins if its
value is present *and nonzero* (Python truthiness: an explicit override of
`0` falls through), while for `ach` any explicit override — including `0` —
wins, then any request value (including `0`), then a cached value. -/
theorem resolve_options_precedence (device_id : String) (request : BaselineRequest)
    (v a c g : Option ℚ) (st : SwitchState) :
    ((∀ x, a = some x →
        (_resolve_options device_id request v (some x) c g st).1.1.ach = some (x : ℝ) ∧
        (_resolve_options device_id request v (some x) c g st).1.2 = "provided") ∧
     (∀ x, request.ach = some x →
        (_resolve_options device_id request v none c g st).1.1.ach = some (x : ℝ) ∧
        (_resolve_options device_id request v none c g st).1.2 = "provided") ∧
     (∀ y, request.ach = none →
        ((_state_for device_id st).1).ach = some y →
        (_resolve_options device_id request v none c g st).1.1.ach = some y) ∧
     (request.ach = none → ((_state_for device_id st).1).ach = none →
        (_resolve_options device_id request v none c g st).1.1.ach =
          some (DEFAULT_DEVICE_ACH : ℝ) ∧
        (_resolve_options device_id request v none c g st).1.2 = "default")) ∧
    ((∀ x, v = some x → x ≠ 0 →
        (_resolve_options device_id request v a c g st).1.1.volume_m3 = x) ∧
     (∀ x, (v = none ∨ v = some 0) → request.volume_m3 = some x → x ≠ 0 →
        (_resolve_options device_id request v a c g st).1.1.volume_m3 = x) ∧
     ((v = none ∨ v = some 0) → (request.volume_m3 = none ∨ request.volume_m3 = some 0) →
        (_resolve_options device_id request v a c g st).1.1.volume_m3 =
          pyOrF ((_state_for device_id st).1).volume_m3 DEFAULT_VOLUME_M3)) ∧
    ((∀ x, c = some x → x ≠ 0 →
        (_resolve_options device_id request v a c g st).1.1.cout_ppm = x) ∧
     (∀ x, (c = none ∨ c = some 0) → request.cout_ppm = some x → x ≠ 0 →
        (_resolve_options device_id request v a c g st).1.1.cout_ppm = x) ∧
     ((c = none ∨ c = some 0) → (request.cout_ppm = none ∨ request.cout_ppm = some 0) →
        (_resolve_options device_id request v a c g st).1.1.cout_ppm =
          pyOrF ((_state_for device_id st).1).cout_ppm DEFAULT_DEVICE_COUT_PPM)) ∧
    ((∀ x, g = some x → x ≠ 0 →
        (_resolve_options device_id request v a c g st).1.1.g_person = x) ∧
     (∀ x, (g = none ∨ g = some 0) → request.g_per_person_m3_s = some x → x ≠ 0 →
        (_resolve_options device_id request v a c g st).1.1.g_person = x) ∧
     ((g = none ∨ g = some 0) →
        (request.g_per_person_m3_s = none ∨ request.g_per_person_m3_s = some 0) →
        (_resolve_options device_id request v a c g st).1.1.g_person =
          ((_state_for device_id st).1).g_person)) := by
  refine ⟨⟨?_, ?_, ?_, ?_⟩, ⟨?_, ?_, ?_⟩, ⟨?_, ?_, ?_⟩, ⟨?_, ?_, ?_⟩⟩
  · intro x hx
    simp [_resolve_options]
  · intro x hx
    simp [_resolve_options, hx]
  · intro y h1 h2
    simp [_resolve_options, h1, h2]
  · intro h1 h2
    simp [_resolve_options, h1, h2]
  · intro x hx hnz
    simp [_resolve_options, hx, pyOrQ, hnz]
  · intro x hv hx hnz
    rcases hv with hv | hv <;> simp [_resolve_options, hv, hx, pyOrQ, hnz]
  · intro hv hr
    rcases hv with hv | hv <;> rcases hr with hr | hr <;>
      simp [_resolve_options, hv, hr, pyOrQ]
  · intro x hx hnz
    simp [_resolve_options, hx, pyOrQ, hnz]
  · intro x hc hx hnz
    rcases hc with hc | hc <;> simp [_resolve_options, hc, hx, pyOrQ, hnz]
  · intro hc hr
    rcases hc with hc | hc <;> rcases hr with hr | hr <;>
      simp [_resolve_options, hc, hr, pyOrQ]
  · intro x hx hnz
    simp [_resolve_options, hx, pyOrQ, hnz]
  · intro x hg hx hnz
    rcases hg with hg | hg <;> simp [_resolve_options, hg, hx, pyOrQ, hnz]
  · intro hg hr
    rcases hg with hg | hg <;> rcases hr with hr | hr <;>
      simp [_resolve_options, hg, hr, pyOrQ]

/-- Witness for `resolve_options_precedence`: an explicit `ach` override of
`0` is adopted while a `volume_m3` override of `0` falls through to the
request value. -/
theorem resolve_options_precedence_witness :
    (_resolve_options "d" { readings := [], volume_m3 := some 100 }
        (some 0) (some 0) none none {}).1.1.ach = some ((0 : ℚ) : ℝ) ∧
    (_resolve_options "d" { readings := [], volume_m3 := some 100 }
        (some 0) (some 0) none none {}).1.1.volume_m3 = 100 := by
  have h := resolve_options_precedence "d"
    { readings := [], volume_m3 := some 100 } (some 0) (some 0) none none {}
  exact ⟨(h.1.1 0 rfl).1, h.2.1.2.1 100 (Or.inr rfl) rfl (by norm_num)⟩

/-- Any concentration inside a breakpoint row is interpolated on that row
(the first — and, the rows being disjoint, the only — matching row). -/
lemma pm25_aqi_row (c : ℚ) (r : AqiRow) (hr : r ∈ PM25_BREAKPOINTS)
    (h1 : r.c_lo ≤ c) (h2 : c ≤ r.c_hi) :
    pm25_aqi (some c) =
      some (r.i_lo + (r.i_hi - r.i_lo) / (r.c_hi - r.c_lo) * (c - r.c_lo)) := by
  fin_cases hr <;> dsimp only at h1 h2 ⊢
  · simp [pm25_aqi, PM25_BREAKPOINTS, List.find?, h1, h2]
  · have n0 : ¬ ((0:ℚ) ≤ c ∧ c ≤ 12) := by rintro ⟨_, hc⟩; linarith
    simp [pm25_aqi, PM25_BREAKPOINTS, List.find?, n0, h1, h2]
    ring
  · have n0 : ¬ ((0:ℚ) ≤ c ∧ c ≤ 12) := by rintro ⟨_, hc⟩; linarith
    have n1 : ¬ ((121/10:ℚ) ≤ c ∧ c ≤ 354/10) := by rintro ⟨_, hc⟩; linarith
    simp [pm25_aqi, PM25_BREAKPOINTS, List.find?, n0, n1, h1, h2]
    ring
  · have n0 : ¬ ((0:ℚ) ≤ c ∧ c ≤ 12) := by rintro ⟨_, hc⟩; linarith
    have n1 : ¬ ((121/10:ℚ) ≤ c ∧ c ≤ 354/10) := by rintro ⟨_, hc⟩; linarith
    have n2 : ¬ ((355/10:ℚ) ≤ c ∧ c ≤ 554/10) := by rintro ⟨_, hc⟩; linarith
    simp [pm25_aqi, PM25_BREAKPOINTS, List.find?, n0, n1, n2, h1, h2]
    ring
  · have n0 : ¬ ((0:ℚ) ≤ c ∧ c ≤ 12) := by rintro ⟨_, hc⟩; linarith
    have n1 : ¬ ((121/10:ℚ) ≤ c ∧ c ≤ 354/10) := by rintro ⟨_, hc⟩; linarith
    have n2 : ¬ ((355/10:ℚ) ≤ c ∧ c ≤ 554/10) := by rintro ⟨_, hc⟩; linarith
    have n3 : ¬ ((555/10:ℚ) ≤ c ∧ c ≤ 1504/10) := by rintro ⟨_, hc⟩; linarith
    simp [pm25_aqi, PM25_BREAKPOINTS, List.find?, n0, n1, n2, n3, h1, h2]
    ring
  · have n0 : ¬ ((0:ℚ) ≤ c ∧ c ≤ 12) := by rintro ⟨_, hc⟩; linarith
    have n1 : ¬ ((121/10:ℚ) ≤ c ∧ c ≤ 354/10) := by rintro ⟨_, hc⟩; linarith
    have n2 : ¬ ((355/10:ℚ) ≤ c ∧ c ≤ 554/10) := by rintro ⟨_, hc⟩; linarith
    have n3 : ¬ ((555/10:ℚ) ≤ c ∧ c ≤ 1504/10) := by rintro ⟨_, hc⟩; linarith
    have n4 : ¬ ((1505/10:ℚ) ≤ c ∧ c ≤ 2504/10) := by rintro ⟨_, hc⟩; linarith
    simp [pm25_aqi, PM25_BREAKPOINTS, List.find?, n0, n1, n2, n3, n4, h1, h2]
    ring

/-- C3 counterexample: at the concentration 12.05 — which lies in the gap
between the first two breakpoint rows and does *not* exceed every row's
upper bound — `pm25_aqi` nevertheless returns the last row's `i_hi` (500),
so the saturation value is not returned "exactly when c exceeds every row's
upper bound". -/
theorem pm25_aqi_gap_counterexample :
    pm25_aqi (some (241/20)) = some 500 ∧
    ((241/20 : ℚ) ≤ 5004/10) ∧
    ¬ ∃ r ∈ PM25_BREAKPOINTS, r.c_lo ≤ (241/20 : ℚ) ∧ (241/20 : ℚ) ≤ r.c_hi := by
  refine ⟨?_, by norm_num, ?_⟩
  · norm_num [pm25_aqi, PM25_BREAKPOINTS, List.find?]
  · rintro ⟨r, hr, hlo, hhi⟩
    fin_cases hr <;> norm_num at hlo hhi

/-- C3 (amended): `pm25_aqi` interpolates the breakpoint row containing the
concentration; when *no* row contains it (which includes, but is not limited
to, concentrations above every row's upper bound: also gap values between
rows and values below the first row) it returns the last row's `i_hi`;
`aqi(12.0) = 50`; and at every row's `c_hi` the interpolated value equals
that row's `i_hi`. -/
theorem pm25_aqi_spec :
    (∀ c r, r ∈ PM25_BREAKPOINTS → r.c_lo ≤ c → c ≤ r.c_hi →
        pm25_aqi (some c) =
          some (r.i_lo + (r.i_hi - r.i_lo) / (r.c_hi - r.c_lo) * (c - r.c_lo))) ∧
    (∀ c, (∀ r ∈ PM25_BREAKPOINTS, ¬ (r.c_lo ≤ c ∧ c ≤ r.c_hi)) →
        pm25_aqi (some c) = some 500) ∧
    pm25_aqi (some 12) = some 50 ∧
    (∀ r ∈ PM25_BREAKPOINTS, pm25_aqi (some r.c_hi) = some r.i_hi) := by
  refine ⟨fun c r hr h1 h2 => pm25_aqi_row c r hr h1 h2, ?_, ?_, ?_⟩
  · intro c h
    have hnone : PM25_BREAKPOINTS.find? (fun r => decide (r.c_lo ≤ c ∧ c ≤ r.c_hi)) = none := by
      rw [List.find?_eq_none]
      intro r hr
      simpa using h r hr
    simp only [pm25_aqi]
    rw [hnone]
    norm_num [PM25_BREAKPOINTS]
  · norm_num [pm25_aqi, PM25_BREAKPOINTS, List.find?]
  · intro r hr
    fin_cases hr <;> norm_num [pm25_aqi, PM25_BREAKPOINTS, List.find?]

/-- C4: the smoke detector's step behaviour.  Activation only ever happens on
a step whose latest NowCast satisfies `latest ≥ trigger ∧ rise ≥ min_rise`;
a triggering step (re)activates with reason `rapid_rise` and a reset counter;
once active, a non-triggering step with `latest ≤ clear_threshold` increments
the counter and deactivates (reason `clearing`) exactly when the incremented
counter reaches `SMOKE_CONSECUTIVE`, holding with reason `hysteresis_hold`
otherwise; a non-triggering step with `latest > clear_threshold` keeps it
active and resets the counter to 0 (reason `hysteresis_hold`); an inactive
non-triggering step stays inactive with reason `below_threshold`.  With the
configured `SMOKE_CONSECUTIVE = 2`, one below-threshold step keeps an active
state active and a second consecutive one clears it. -/
theorem assess_smoke_hysteresis (series : List (ℚ × ℚ)) (st : SmokeState)
    (h : series ≠ []) :
    ((assess_smoke series (some st)).2.active = true → st.active = false →
       (smokeLatest series).2 ≥ SMOKE_TRIGGER ∧
       (smokeLatest series).2 - smokeReference series ≥ SMOKE_MIN_RISE) ∧
    ((smokeLatest series).2 ≥ SMOKE_TRIGGER →
       (smokeLatest series).2 - smokeReference series ≥ SMOKE_MIN_RISE →
       (assess_smoke series (some st)).2 = ⟨true, 0, "rapid_rise"⟩) ∧
    (¬ ((smokeLatest series).2 ≥ SMOKE_TRIGGER ∧
        (smokeLatest series).2 - smokeReference series ≥ SMOKE_MIN_RISE) →
       st.active = true →
       (smokeLatest series).2 ≤ SMOKE_TRIGGER - SMOKE_CLEAR_DELTA →
       ((st.consecutive_below + 1 < SMOKE_CONSECUTIVE →
           (assess_smoke series (some st)).2 =
             ⟨true, st.consecutive_below + 1, "hysteresis_hold"⟩) ∧
        (st.consecutive_below + 1 ≥ SMOKE_CONSECUTIVE →
           (assess_smoke series (some st)).2 = ⟨false, 0, "clearing"⟩))) ∧
    (¬ ((smokeLatest series).2 ≥ SMOKE_TRIGGER ∧
        (smokeLatest series).2 - smokeReference series ≥ SMOKE_MIN_RISE) →
       st.active = true →
       (smokeLatest series).2 > SMOKE_TRIGGER - SMOKE_CLEAR_DELTA →
       (assess_smoke series (some st)).2 = ⟨true, 0, "hysteresis_hold"⟩) ∧
    (¬ ((smokeLatest series).2 ≥ SMOKE_TRIGGER ∧
        (smokeLatest series).2 - smokeReference series ≥ SMOKE_MIN_RISE) →
       st.active = false →
       (assess_smoke series (some st)).2 = ⟨false, 0, "below_threshold"⟩) := by
  unfold assess_smoke
  simp only [h, if_false, Option.getD_some]
  by_cases htm : (smokeLatest series).2 ≥ SMOKE_TRIGGER ∧
      (smokeLatest series).2 - smokeReference series ≥ SMOKE_MIN_RISE
  · refine ⟨fun _ _ => htm, fun _ _ => by simp [htm], fun hn => absurd htm hn,
      fun hn => absurd htm hn, fun hn => absurd htm hn⟩
  · refine ⟨?_, fun h1 h2 => absurd ⟨h1, h2⟩ htm, ?_, ?_, ?_⟩
    · by_cases hact : st.active
      · intro _ hfalse
        rw [hact] at hfalse
        exact absurd hfalse (by simp)
      · intro hnew _
        exfalso
        by_cases hbelow : (smokeLatest series).2 ≤ SMOKE_TRIGGER - SMOKE_CLEAR_DELTA <;>
          simp [htm, hact, hbelow] at hnew
    · intro _ hact hbelow
      constructor
      · intro hlt
        have hnotge : ¬ st.consecutive_below + 1 ≥ SMOKE_CONSECUTIVE := by omega
        simp [htm, hact, hbelow, hnotge]
      · intro hge
        simp [htm, hact, hbelow, hge]
    · intro _ hact habove
      have hnb : ¬ (smokeLatest series).2 ≤ SMOKE_TRIGGER - SMOKE_CLEAR_DELTA := not_le.mpr habove
      simp [htm, hact, hnb]
    · intro _ hact
      simp [htm, hact]

/-- Witness for `assess_smoke_hysteresis`: a concrete two-point rising series
triggers activation with reason `rapid_rise`. -/
theorem assess_smoke_hysteresis_witness :
    (assess_smoke [(0, 10), (700, 40)] (some ⟨false, 0, "normal"⟩)).2 =
      ⟨true, 0, "rapid_rise"⟩ := by
  have hlatest : (smokeLatest [(0, 10), (700, 40)]).2 = 40 := by
    norm_num [smokeLatest, List.insertionSort, List.orderedInsert]
  have href : smokeReference [(0, 10), (700, 40)] = 10 := by
    norm_num [smokeReference, List.insertionSort, List.orderedInsert, List.find?]
  exact (assess_smoke_hysteresis [(0, 10), (700, 40)] ⟨false, 0, "normal"⟩
      (by simp)).2.1
    (by rw [hlatest]; norm_num [SMOKE_TRIGGER])
    (by rw [hlatest, href]; norm_num [SMOKE_MIN_RISE])

/-- Geometric reindexing for the NowCast weighted sum. -/
lemma enumFrom_pow_sum (w : ℚ) (n : ℕ) (l : List ℚ) :
    ((l.enumFrom n).map fun iv => w ^ iv.1 * iv.2).sum
      = w ^ n * ((l.enumFrom 0).map fun iv => w ^ iv.1 * iv.2).sum := by
  induction l generalizing n with
  | nil => simp
  | cons x xs ih =>
      simp only [List.enumFrom_cons, List.map_cons, List.sum_cons, ih (n + 1), ih 1]
      ring

/-- Geometric reindexing for the NowCast weight total. -/
lemma enumFrom_pow_den (w : ℚ) (n : ℕ) (l : List ℚ) :
    ((l.enumFrom n).map fun iv => w ^ iv.1).sum
      = w ^ n * ((l.enumFrom 0).map fun iv => w ^ iv.1).sum := by
  induction l generalizing n with
  | nil => simp
  | cons x xs ih =>
      simp only [List.enumFrom_cons, List.map_cons, List.sum_cons, ih (n + 1), ih 1]
      ring

lemma nowcastNum_cons (w x : ℚ) (xs : List ℚ) :
    nowcastNum w (x :: xs) = x + w * nowcastNum w xs := by
  simp only [nowcastNum, List.enum, List.enumFrom_cons, List.map_cons, List.sum_cons,
    enumFrom_pow_sum w 1]
  ring

lemma nowcastDen_cons (w x : ℚ) (xs : List ℚ) :
    nowcastDen w (x :: xs) = 1 + w * nowcastDen w xs := by
  simp only [nowcastDen, List.enum, List.enumFrom_cons, List.map_cons, List.sum_cons,
    enumFrom_pow_den w 1]
  ring

lemma nowcastDen_nonneg (w : ℚ) (hw : 0 ≤ w) (l : List ℚ) : 0 ≤ nowcastDen w l := by
  induction l with
  | nil => simp [nowcastDen]
  | cons x xs ih =>
      rw [nowcastDen_cons]
      nlinarith

lemma nowcastDen_pos (w : ℚ) (hw : 0 < w) (l : List ℚ) (hl : l ≠ []) :
    0 < nowcastDen w l := by
  cases l with
  | nil => exact absurd rfl hl
  | cons x xs =>
      rw [nowcastDen_cons]
      have := nowcastDen_nonneg w hw.le xs
      nlinarith

/-- The weighted sum is a convex combination: it is bounded by the extreme
values scaled by the weight total. -/
lemma nowcast_weighted_bounds (w m M : ℚ) (hw : 0 < w) (l : List ℚ)
    (hb : ∀ v ∈ l, m ≤ v ∧ v ≤ M) :
    m * nowcastDen w l ≤ nowcastNum w l ∧ nowcastNum w l ≤ M * nowcastDen w l := by
  induction l with
  | nil => simp [nowcastNum, nowcastDen]
  | cons x xs ih =>
      have hx := hb x (List.mem_cons_self x xs)
      have ihs := ih fun v hv => hb v (List.mem_cons_of_mem x hv)
      rw [nowcastNum_cons, nowcastDen_cons]
      constructor
      · have h1 : w * (m * nowcastDen w xs) ≤ w * nowcastNum w xs :=
          mul_le_mul_of_nonneg_left ihs.1 hw.le
        nlinarith
      · have h1 : w * nowcastNum w xs ≤ w * (M * nowcastDen w xs) :=
          mul_le_mul_of_nonneg_left ihs.2 hw.le
        nlinarith

/-- Every element of a nonempty rational list is bounded below by
`min?.getD 0` and above by `max?.getD 0`. -/
lemma list_min_max_bounds (t : List ℚ) (ht : t ≠ []) :
    ∀ v ∈ t, (t.min?).getD 0 ≤ v ∧ v ≤ (t.max?).getD 0 := by
  intro v hv
  obtain ⟨m, hm⟩ : ∃ m, t.min? = some m := by
    cases h : t.min? with
    | none => exact absurd (List.min?_eq_none_iff.mp h) ht
    | some m => exact ⟨m, rfl⟩
  obtain ⟨M, hM⟩ : ∃ M, t.max? = some M := by
    cases h : t.max? with
    | none => exact absurd (List.max?_eq_none_iff.mp h) ht
    | some M => exact ⟨M, rfl⟩
  rw [hm, hM]
  constructor
  · exact (List.le_min?_iff (fun a b c => le_min_iff) hm).mp le_rfl v hv
  · exact (List.max?_le_iff (fun a b c => max_le_iff) hM).mp le_rfl v hv

/-- A nonempty NowCast input yields a value between the extremes of the
≤12-value window. -/
lemma nowcast_bounds (l : List ℚ) (hne : l ≠ []) :
    ∃ r, compute_nowcast_pm25 l = some r ∧
      ((l.drop (l.length - 12)).min?).getD 0 ≤ r ∧
      r ≤ ((l.drop (l.length - 12)).max?).getD 0 := by
  by_cases h1 : l.length = 1
  · obtain ⟨x, rfl⟩ := List.length_eq_one.mp h1
    exact ⟨x, by simp [compute_nowcast_pm25], by simp, by simp⟩
  · set t := l.drop (l.length - 12) with ht
    have htne : t ≠ [] := by
      have hlp : 0 < l.length := List.length_pos.mpr hne
      have hpos : 0 < t.length := by
        rw [ht, List.length_drop]
        omega
      exact List.length_pos.mp hpos
    set M := (t.max?).getD 0 with hM
    set m := (t.min?).getD 0 with hm
    set w := max (1/2 : ℚ) (1 - (M - m) / max M (1/1000000)) with hwdef
    have hw : 0 < w := lt_of_lt_of_le (by norm_num) (le_max_left _ _)
    have hrne : t.reverse ≠ [] := by simpa using htne
    have hden := nowcastDen_pos w hw t.reverse hrne
    have hbounds := nowcast_weighted_bounds w m M hw t.reverse
      (fun v hv => list_min_max_bounds t htne v (List.mem_reverse.mp hv))
    refine ⟨nowcastNum w t.reverse / nowcastDen w t.reverse, ?_, ?_, ?_⟩
    · unfold compute_nowcast_pm25
      rw [if_neg hne, if_neg h1]
      dsimp only
      rw [← ht, ← hM, ← hm, ← hwdef, if_pos hden.ne']
    · exact (le_div_iff₀ hden).mpr hbounds.1
    · exact (div_le_iff₀ hden).mpr hbounds.2

/-- C10: the NowCast smoothing of a nonempty list of (non-null) PM2.5 values
is a convex combination of the last at most 12 values — it lies between
their minimum and maximum; a single value is returned unchanged, and a
constant series returns that constant. -/
theorem nowcast_convex_combination :
    (∀ l : List ℚ, l ≠ [] →
       ∃ r, compute_nowcast_pm25 l = some r ∧
         ((l.drop (l.length - 12)).min?).getD 0 ≤ r ∧
         r ≤ ((l.drop (l.length - 12)).max?).getD 0) ∧
    (∀ v : ℚ, compute_nowcast_pm25 [v] = some v) ∧
    (∀ (n : ℕ) (v : ℚ), n ≠ 0 → compute_nowcast_pm25 (List.replicate n v) = some v) := by
  refine ⟨nowcast_bounds, fun v => by simp [compute_nowcast_pm25], ?_⟩
  intro n v hn
  have hne : List.replicate n v ≠ [] := by
    cases n with
    | zero => exact absurd rfl hn
    | succ k => simp
  obtain ⟨r, hr, h1, h2⟩ := nowcast_bounds (List.replicate n v) hne
  rw [List.drop_replicate, List.length_replicate] at h1 h2
  have hk : 0 < n - (n - 12) := by omega
  rw [List.min?_replicate_of_pos (min_self v) hk, Option.getD_some] at h1
  rw [List.max?_replicate_of_pos (max_self v) hk, Option.getD_some] at h2
  rw [hr, le_antisymm h2 h1]

/-- Witness for `nowcast_convex_combination`: applied to the concrete series
`[3, 5]`. -/
theorem nowcast_convex_combination_witness :
    ∃ r, compute_nowcast_pm25 [3, 5] = some r ∧
      ((([3, 5] : List ℚ).drop (([3, 5] : List ℚ).length - 12)).min?).getD 0 ≤ r ∧
      r ≤ ((([3, 5] : List ℚ).drop (([3, 5] : List ℚ).length - 12)).max?).getD 0 :=
  nowcast_convex_combination.1 [3, 5] (by simp)

/-- Evaluation of `compute_occupancy` on the single end-to-end reading with
default parameters: the derivative branch is skipped (one point only), so the
steady-state fallback produces `Q·(C_t − C_out)/g = 25/3 ≈ 8.33` occupants. -/
lemma occupancy_single_eval :
    (compute_occupancy [officeSample] officeOptions "default" true none).1.n_estimate = 25/3 ∧
    (compute_occupancy [officeSample] officeOptions "default" true none).1.note =
      "ach_source=default; ma3_co2_smoothing; steady_state_estimate" ∧
    (compute_occupancy [officeSample] officeOptions "default" true none).1.ach_used = 1 ∧
    (compute_occupancy [officeSample] officeOptions "default" true none).1.ach_source =
      "default" := by
  have hma : _moving_average [(900 : ℚ)] 3 = [900] := by
    norm_num [_moving_average, show List.range 1 = [0] from rfl]
  have hach : estimate_ach [(0 : ℚ)] [(900 : ℚ)] 420 = none := by
    norm_num [estimate_ach]
  refine ⟨?_, ?_, ?_, ?_⟩ <;>
    simp [compute_occupancy, officeSample, officeOptions, List.insertionSort,
      List.orderedInsert, hma, hach, String.intercalate]
  · have hp : pyOrF (4 / 1000000 : ℚ) DEFAULT_G_PERSON = 4 / 1000000 := by
      norm_num [pyOrF, DEFAULT_G_PERSON]
    rw [hp]
    push_cast
    rw [show ((4 / 1000000 : ℝ) ⊔ 1000000000⁻¹) = 4 / 1000000 from
      sup_eq_left.mpr (by norm_num)]
    rw [show (0 : ℝ) ⊔ 250 / 3600 * (900 / 1000000 - 420 / 1000000) / (4 / 1000000)
        = 250 / 3600 * (900 / 1000000 - 420 / 1000000) / (4 / 1000000) from
      sup_eq_right.mpr (by norm_num)]
    norm_num
  · decide

/-- C2 counterexample: on the end-to-end single reading with default
parameters the occupancy estimate is *not* 0 — the steady-state fallback
yields `25/3 ≈ 8.33` occupants. -/
theorem occupancy_single_reading_nonzero :
    (compute_occupancy [officeSample] officeOptions "default" true none).1.n_estimate ≠ 0 := by
  rw [occupancy_single_eval.1]
  norm_num

/-- C2 (amended): on the single reading `{co2:900, voc:300, pm25:10,
temp_c:22, rh:45}` with default parameters (resolved for a fresh device to
volume 250 m³, ACH 1.0 with origin `default`, outdoor CO₂ 420 ppm, and
per-person generation 4e-6 m³/s), the occupancy result takes the
steady-state single-point fallback: `n_estimate = 25/3` (not 0), with the
note recording the `steady_state_estimate` fallback branch. -/
theorem occupancy_single_reading_steady_state :
    (_resolve_options "office_iaq" { readings := [] } none none none none {}).1.1.volume_m3
      = 250 ∧
    (_resolve_options "office_iaq" { readings := [] } none none none none {}).1.1.ach
      = some 1 ∧
    (_resolve_options "office_iaq" { readings := [] } none none none none {}).1.1.cout_ppm
      = 420 ∧
    (_resolve_options "office_iaq" { readings := [] } none none none none {}).1.1.g_person
      = 4/1000000 ∧
    (_resolve_options "office_iaq" { readings := [] } none none none none {}).1.2
      = "default" ∧
    (compute_occupancy [officeSample] officeOptions "default" true none).1.n_estimate
      = 25/3 ∧
    (compute_occupancy [officeSample] officeOptions "default" true none).1.note
      = "ach_source=default; ma3_co2_smoothing; steady_state_estimate" ∧
    (compute_occupancy [officeSample] officeOptions "default" true none).1.ach_used = 1 ∧
    (compute_occupancy [officeSample] officeOptions "default" true none).1.ach_source
      = "default" := by
  refine ⟨?_, ?_, ?_, ?_, ?_, occupancy_single_eval.1, occupancy_single_eval.2.1,
    occupancy_single_eval.2.2.1, occupancy_single_eval.2.2.2⟩ <;>
    norm_num [_resolve_options, _state_for, pyOrQ, pyOrF, pyOrStr,
      DEFAULT_VOLUME_M3, DEFAULT_DEVICE_COUT_PPM, DEFAULT_DEVICE_ACH, DEFAULT_G_PERSON]

/-- C1: `estimate_ach` does *not* reject a batch containing CO₂ values at or
below the outdoor baseline.  With baseline 420 ppm, the values 419 and 418
are ≤ the baseline, yet the estimator returns a present (finite) ACH: the
source clamps each excess to `max(v - cout, 1e-6)` *before* its
`any(v <= 0)` rejection guard, so the guard can never fire. -/
theorem estimate_ach_accepts_below_baseline :
    ((419 : ℚ) ≤ 420) ∧ ((418 : ℚ) ≤ 420) ∧
    (estimate_ach [0, 60, 120] [1000, 419, 418] 420).isSome = true := by
  refine ⟨by norm_num, by norm_num, ?_⟩
  have hlog : Real.log (((1 : ℚ)/1000000 : ℚ) : ℝ) < Real.log ((580 : ℚ) : ℝ) := by
    apply Real.log_lt_log
    · push_cast
      norm_num
    · push_cast
      norm_num
  have hexcess : ([1000, 419, 418] : List ℚ).map (fun v => max (v - 420) (1/1000000))
      = [580, 1/1000000, 1/1000000] := by
    norm_num [max_eq_left, max_eq_right]
  have hguard : (([580, 1/1000000, 1/1000000] : List ℚ).any fun v => decide (v ≤ 0))
      = false := by
    norm_num
  unfold estimate_ach
  rw [if_neg (by norm_num : ¬ ([0, 60, 120] : List ℚ).length < 3)]
  simp only [hexcess, hguard, List.headD_cons]
  norm_num [_regression_slope]
  push_cast at hlog
  apply div_neg_of_neg_of_pos
  · linarith
  · norm_num

/-- A bounded-deque append is never empty. -/
lemma pushBounded_ne_nil (l : List ReadingMapping) (x : ReadingMapping) :
    pushBounded l x ≠ [] := by
  unfold pushBounded
  dsimp only
  split
  · next hlen =>
      intro h
      have hl := congrArg List.length h
      simp only [List.length_drop, List.length_nil] at hl
      omega
  · simp

/-- The resolved device key is never the empty string. -/
lemma deviceOf_ne_empty (p : Option String) :
    (pyOrOptStr p (some "unknown")).getD "unknown" ≠ "" := by
  cases p with
  | none => simp [pyOrOptStr]
  | some s =>
      by_cases h : s = "" <;> simp [pyOrOptStr, h]

/-- State effects of `_compute` with `update_state = False` on a device whose
state entry already exists: the mode, device-state store and history are
untouched; only the last-result cache for the device is overwritten (when the
computation succeeds). -/
lemma compute_state_effects (request : BaselineRequest) (v a c g : Option ℚ)
    (st : SwitchState) (device : String) (ds : DeviceState)
    (hdev : (pyOrOptStr request.device_id (some "unknown")).getD "unknown" = device)
    (hds : st.deviceState device = some ds) :
    (_compute request v a c g false st).2.mode = st.mode ∧
    (_compute request v a c g false st).2.deviceState = st.deviceState ∧
    (_compute request v a c g false st).2.history = st.history ∧
    (_compute request v a c g false st).2.lastResults device
      = ((_compute request v a c g false st).1 <|> st.lastResults device) ∧
    (∀ d, d ≠ device →
      (_compute request v a c g false st).2.lastResults d = st.lastResults d) := by
  unfold _compute _resolve_options
  rw [hdev]
  simp only [_state_for, hds]
  by_cases hs : _samples_from_request request = []
  · simp [hs]
  · refine ⟨?_, ?_, ?_, ?_, ?_⟩
    · simp [hs]
    · simp [hs]
    · simp [hs]
    · simp [hs, Function.update_same]
    · intro d hd
      simp [hs, Function.update_noteq hd]

/-- C5 counterexample: a streaming submission is *not* side-effect-free
beyond the history buffer — it overwrites the device's last-result cache
(absent before, present after). -/
theorem streaming_overwrites_last_result :
    (((compute_from_payload
        { timestamp := some 0, device_id := some "d", co2 := some 900 }
        none none none none {}).2.lastResults "d").isSome = true) ∧
    ((({} : SwitchState).lastResults "d").isSome = false) := by
  constructor
  · simp [compute_from_payload, record_history, build_request_from_history,
      _compute, _state_for, _resolve_options, _samples_from_request,
      Sample.fromMapping, pyOrOptStr, pushBounded, Function.update_same]
  · rfl

/-- C5 (amended): a streaming submission commits no ACH/NowCast/smoke-state
update to the Device State Store (for a device with an existing cached state
the store is completely unchanged) and the mode is untouched; the device's
history buffer gains exactly the submitted reading (bounded append) while
other devices' buffers are untouched; but the device's last-result cache *is*
overwritten with the computed result whenever the computation succeeds (and
an invalid payload leaves the state unchanged entirely). -/
theorem streaming_side_effects (payload : ReadingMapping)
    (v a c g : Option ℚ) (st : SwitchState) (device : String) (ds : DeviceState)
    (hdev : (pyOrOptStr payload.device_id (some "unknown")).getD "unknown" = device)
    (hds : st.deviceState device = some ds) :
    (compute_from_payload payload v a c g st).2.mode = st.mode ∧
    (compute_from_payload payload v a c g st).2.deviceState = st.deviceState ∧
    (∀ d, d ≠ device →
      (compute_from_payload payload v a c g st).2.history d = st.history d) ∧
    (∀ t, payload.timestamp = some t →
      (compute_from_payload payload v a c g st).2.history device
        = pushBounded (st.history device) payload) ∧
    (payload.timestamp = none → compute_from_payload payload v a c g st = (none, st)) ∧
    (compute_from_payload payload v a c g st).2.lastResults device
      = ((compute_from_payload payload v a c g st).1 <|> st.lastResults device) ∧
    (∀ d, d ≠ device →
      (compute_from_payload payload v a c g st).2.lastResults d = st.lastResults d) := by
  cases hts : payload.timestamp with
  | none =>
      have heq : compute_from_payload payload v a c g st = (none, st) := by
        unfold compute_from_payload
        rw [hts]
      simp [heq, hts]
  | some t =>
      have hne : device ≠ "" := hdev ▸ deviceOf_ne_empty payload.device_id
      have hpush : pushBounded (st.history device) payload ≠ [] := pushBounded_ne_nil _ _
      have hstep : compute_from_payload payload v a c g st
          = _compute { device_id := some device,
                       readings := pushBounded (st.history device) payload }
              v a c g false (record_history payload st) := by
        unfold compute_from_payload
        rw [hts]
        simp only [hdev, record_history, build_request_from_history,
          Function.update_same, if_neg hpush]
      obtain ⟨m1, m2, m3, m4, m5⟩ := compute_state_effects
        { device_id := some device, readings := pushBounded (st.history device) payload }
        v a c g (record_history payload st) device ds
        (by simp [pyOrOptStr, hne]) hds
      rw [hstep]
      refine ⟨?_, ?_, ?_, ?_, ?_, ?_, ?_⟩
      · rw [m1]
        rfl
      · rw [m2]
        rfl
      · intro d hd
        rw [m3]
        simp [record_history, hdev, Function.update_noteq hd]
      · intro t' _
        rw [m3]
        simp [record_history, hdev, Function.update_same]
      · intro hnone
        exact absurd hnone (by simp)
      · rw [m4]
        rfl
      · intro d hd
        rw [m5 d hd]
        rfl

/-- Witness for `streaming_side_effects`: concrete payload and a state with
an existing device entry — the device-state store and mode are unchanged. -/
theorem streaming_side_effects_witness :
    (compute_from_payload { timestamp := some 0, device_id := some "d", co2 := some 900 }
        none none none none
        { deviceState := Function.update (fun _ => none) "d" (some { device_id := "d" }) }
      ).2.deviceState
      = ({ deviceState := Function.update (fun _ => none) "d" (some { device_id := "d" }) }
          : SwitchState).deviceState ∧
    (compute_from_payload { timestamp := some 0, device_id := some "d", co2 := some 900 }
        none none none none
        { deviceState := Function.update (fun _ => none) "d" (some { device_id := "d" }) }
      ).2.mode = "baseline" := by
  have h := streaming_side_effects
    { timestamp := some 0, device_id := some "d", co2 := some 900 }
    none none none none
    { deviceState := Function.update (fun _ => none) "d" (some { device_id := "d" }) }
    "d" { device_id := "d" }
    (by simp [pyOrOptStr]) (by simp [Function.update_same])
  exact ⟨h.2.1, h.1⟩

end Robomo
